import Mathlib

/-!
Shallow embedding of `src/utils/data_fetcher.py` (class `DataFetcher`).

Modelling conventions:
* A pandas DataFrame row of OHLCV data is a `Bar`; a cell that may be NaN is an
  `Option ℚ` (prices are modelled as rationals). `DataFrame.dropna()` removes
  every row with at least one missing cell (`dropna`).
* Timestamps are whole hours since an epoch that falls on a midnight, so the
  pandas `resample('4H')` bucket of a bar (origin `start_day`, and 4 divides 24)
  is `ts / 4`.
* The external yfinance provider is a record of functions returning
  `Except String _`: `Except.error` models a raised exception,
  `Except.ok` a normal return. `ticker.info` fields that may be missing from the
  quote dictionary are `Option ℚ`.
* A Python `print` of an error message is modelled by returning the list of
  printed lines next to the result; a total Lean function returning normally
  models "no exception propagates to the caller".
* pandas `agg` semantics per bucket: `first`/`last` are the first/last
  non-missing value, `max`/`min` skip missing values, `sum` skips missing values
  and yields 0 on an empty or all-missing bucket.
-/

/-- One OHLCV row: the columns `Open, High, Low, Close, Volume` of the
DataFrames in `data_fetcher.py`, each possibly NaN, plus its time index in
hours. -/
structure Bar where
  ts : Nat
  Open : Option ℚ
  High : Option ℚ
  Low : Option ℚ
  Close : Option ℚ
  Volume : Option ℚ
deriving DecidableEq

/-- A row survives `DataFrame.dropna()` iff no cell is missing. -/
def rowComplete (b : Bar) : Bool :=
  b.Open.isSome && b.High.isSome && b.Low.isSome && b.Close.isSome && b.Volume.isSome

/-- `DataFrame.dropna()`: drop every row with at least one missing cell. -/
def dropna (l : List Bar) : List Bar :=
  l.filter rowComplete

/-- The fields of `ticker.info` read by `get_latest_price`; each may be absent
from the provider's quote dictionary. -/
structure Info where
  currentPrice : Option ℚ
  previousClose : Option ℚ
  volume : Option ℚ
  marketCap : Option ℚ

/-- The external yfinance provider: `ticker.history(period, interval)` and
`ticker.info`, keyed by the symbol string; `Except.error` models a raised
exception. -/
structure Provider where
  history : String → String → String → Except String (List Bar)
  info : String → Except String Info

/-- Aggregation of one 4-hour bucket, from the `agg` dictionary in
`_resample_to_4h`: Open = first, High = max, Low = min, Close = last,
Volume = sum (pandas skips missing values; sum of none is 0). -/
def aggGroup (key : Nat) (g : List Bar) : Bar where
  ts := key * 4
  Open := (g.filterMap Bar.Open).head?
  High := (g.filterMap Bar.High).max?
  Low := (g.filterMap Bar.Low).min?
  Close := (g.filterMap Bar.Close).getLast?
  Volume := some (g.filterMap Bar.Volume).sum

/-- The body of the `try` block of `_resample_to_4h`:
`hourly_data.resample('4H').agg({...}).dropna()`. pandas materialises every
4-hour bucket from the first bar's bucket to the last one's (day-aligned, since
the origin is the first day's midnight and 4 divides 24) and the trailing
`dropna()` then removes buckets left with a missing cell — in particular every
empty bucket. An empty frame resamples to an empty frame. -/
def resample4h_core (hourly : List Bar) : List Bar :=
  match hourly with
  | [] => []
  | b :: bs =>
    let keys := (b :: bs).map fun x => x.ts / 4
    let lo := keys.foldl Nat.min (b.ts / 4)
    let hi := keys.foldl Nat.max (b.ts / 4)
    dropna ((List.range (hi + 1 - lo)).map fun i =>
      aggGroup (lo + i) ((b :: bs).filter fun x => x.ts / 4 == lo + i))

/-- `_resample_to_4h`: runs the aggregation step and, if it raises, prints the
error and returns the input unchanged. The possibly-failing pandas computation
of the `try` block is a parameter `agg`; its successful behaviour is
`resample4h_core` (see `resample_to_4h`). Returns (result, printed lines). -/
def resample_to_4h_try (agg : List Bar → Except String (List Bar))
    (hourly : List Bar) : List Bar × List String :=
  match agg hourly with
  | Except.ok r => (r, [])
  | Except.error e => (hourly, ["Error resampling to 4h: " ++ e])

/-- `_resample_to_4h` on the pandas semantics modelled by `resample4h_core`
(the aggregation step succeeds). -/
def resample_to_4h (hourly : List Bar) : List Bar :=
  (resample_to_4h_try (fun h => Except.ok (resample4h_core h)) hourly).1

/-- The `interval_map` dictionary of `get_stock_data`. -/
def interval_map : List (String × String) :=
  [("15m", "15m"), ("1h", "1h"), ("4h", "1h"), ("1d", "1d")]

/-- `interval_map.get(interval, interval)`: the interval actually passed to the
provider. -/
def yfInterval (interval : String) : String :=
  ((interval_map.lookup interval).getD interval)

/-- `get_stock_data(symbol, period, interval)`: fetch history at `yfInterval
interval`; on a raised provider error print and return `None`; on an empty
frame return `None`; otherwise resample to 4h when `interval == "4h"` was
mapped to `"1h"`, then `dropna()`. Returns (result, printed lines); `none`
models Python's `None`. -/
def get_stock_data (p : Provider) (symbol period interval : String) :
    Option (List Bar) × List String :=
  match p.history symbol period (yfInterval interval) with
  | Except.error e => (none, ["Error fetching data for " ++ symbol ++ ": " ++ e])
  | Except.ok data =>
    if data.isEmpty then (none, [])
    else
      let data2 := if interval == "4h" && yfInterval interval == "1h"
        then resample_to_4h data else data
      (some (dropna data2), [])

/-- The dictionary returned by `get_latest_price`. -/
structure Snapshot where
  symbol : String
  current_price : ℚ
  previous_close : ℚ
  change : ℚ
  change_percent : ℚ
  volume : ℚ
  market_cap : ℚ
deriving DecidableEq

/-- Python truthiness of `info.get('previousClose')`: false when the key is
absent or the value is zero. -/
def pyTruthy (x : Option ℚ) : Bool :=
  match x with
  | none => false
  | some v => decide (v ≠ 0)

/-- `get_latest_price(symbol)`: build the snapshot dictionary from
`ticker.info`, each missing field defaulting to 0 (the `change_percent`
denominator defaults to 1, guarded by the truthiness test); return `None` on a
raised provider error. -/
def get_latest_price (p : Provider) (symbol : String) : Option Snapshot :=
  match p.info symbol with
  | Except.error _ => none
  | Except.ok q => some
    { symbol := symbol
      current_price := q.currentPrice.getD 0
      previous_close := q.previousClose.getD 0
      change := q.currentPrice.getD 0 - q.previousClose.getD 0
      change_percent :=
        if pyTruthy q.previousClose then
          ((q.currentPrice.getD 0 - q.previousClose.getD 0) /
            q.previousClose.getD 1) * 100
        else 0
      volume := q.volume.getD 0
      market_cap := q.marketCap.getD 0 }

/-- `datetime.now()` as far as `check_market_hours` reads it: the weekday
(Monday = 0) and the time of day. `now.replace(hour, minute, second=0,
microsecond=0)` keeps the date, so comparing `now` with `market_open` and
`market_close` compares only these time-of-day fields, lexicographically. -/
structure LocalTime where
  weekday : Nat
  hour : Nat
  minute : Nat
  second : Nat
  microsecond : Nat
deriving DecidableEq

/-- Lexicographic `datetime` order on (hour, minute, second, microsecond),
for two datetimes sharing the same date. -/
def dtLE (h1 m1 s1 u1 h2 m2 s2 u2 : Nat) : Bool :=
  decide (h1 < h2) || (h1 == h2 &&
    (decide (m1 < m2) || (m1 == m2 &&
      (decide (s1 < s2) || (s1 == s2 && decide (u1 ≤ u2))))))

/-- `check_market_hours()`: weekday (Monday–Friday) and
`market_open <= now <= market_close` with `market_open = now.replace(9, 15, 0,
0)` and `market_close = now.replace(15, 30, 0, 0)`; the local clock is used
as-is. -/
def check_market_hours (now : LocalTime) : Bool :=
  let is_weekday := decide (now.weekday < 5)
  let is_trading_hours :=
    dtLE 9 15 0 0 now.hour now.minute now.second now.microsecond &&
    dtLE now.hour now.minute now.second now.microsecond 15 30 0 0
  is_weekday && is_trading_hours

/-- Microseconds since midnight, for characterising the trading window. -/
def usOfDay (t : LocalTime) : Nat :=
  ((t.hour * 60 + t.minute) * 60 + t.second) * 1000000 + t.microsecond

/-- `validate_symbol(symbol)`: `not ticker.history(period="5d",
interval="1d").empty`, and `False` on a raised provider error. -/
def validate_symbol (p : Provider) (symbol : String) : Bool :=
  match p.history symbol "5d" "1d" with
  | Except.error _ => false
  | Except.ok data => !data.isEmpty

/-- Spec-side definition for the 4h refinement claim, following the spec's
words: for interval "4h", `get_series` requests "1h" bars and returns the
4-hour aggregation with missing-field rows removed, `absent` on error or no
rows. -/
def spec_get_series_4h (p : Provider) (symbol period : String) :
    Option (List Bar) :=
  match p.history symbol period "1h" with
  | Except.error _ => none
  | Except.ok data =>
    if data.isEmpty then none else some (dropna (resample_to_4h data))

/-- The 24 hourly bars of one calendar day, hours 00:00–23:00, every OHLCV
cell of bar `h` holding the value `h + 1` (values 1..24). -/
def day24 : List Bar :=
  (List.range 24).map fun h =>
    { ts := h
      Open := some ((h + 1 : ℕ) : ℚ)
      High := some ((h + 1 : ℕ) : ℚ)
      Low := some ((h + 1 : ℕ) : ℚ)
      Close := some ((h + 1 : ℕ) : ℚ)
      Volume := some ((h + 1 : ℕ) : ℚ) }

/-- Provider every call of which raises. -/
def pFail : Provider :=
  { history := fun _ _ _ => Except.error "boom"
    info := fun _ => Except.error "boom" }

/-- Provider returning an empty history frame and no quote. -/
def pEmpty : Provider :=
  { history := fun _ _ _ => Except.ok []
    info := fun _ => Except.error "no quote" }

/-- C1: for every symbol, period and interval, `get_stock_data` returns `None`
when the provider raises (printing the error, returning normally — no
exception reaches the caller) and `None` when the provider returns no rows
(nothing printed). -/
theorem get_stock_data_absent_on_error_or_empty
    (p : Provider) (symbol period interval : String) :
    (∀ e, p.history symbol period (yfInterval interval) = Except.error e →
      get_stock_data p symbol period interval =
        (none, ["Error fetching data for " ++ symbol ++ ": " ++ e])) ∧
    (p.history symbol period (yfInterval interval) = Except.ok [] →
      get_stock_data p symbol period interval = (none, [])) := by
  constructor
  · intro e he
    simp only [get_stock_data, he]
  · intro he
    simp only [get_stock_data, he, List.isEmpty_nil, if_true]

/-- Witness for C1 at concrete providers: one raising, one with no rows. -/
theorem get_stock_data_absent_on_error_or_empty_witness :
    get_stock_data pFail "RELIANCE.NS" "60d" "1d" =
      (none, ["Error fetching data for RELIANCE.NS: boom"]) ∧
    get_stock_data pEmpty "RELIANCE.NS" "60d" "1d" = (none, []) :=
  ⟨(get_stock_data_absent_on_error_or_empty pFail "RELIANCE.NS" "60d" "1d").1
      "boom" rfl,
   (get_stock_data_absent_on_error_or_empty pEmpty "RELIANCE.NS" "60d" "1d").2
      rfl⟩

/-- C2: on the hourly series `day24` (one calendar day, hours 00:00–23:00,
OHLCV values 1..24), `resample_to_4h` produces exactly the 6 day-aligned
buckets; each bucket's open is its first bar's open, high the max of highs,
low the min of lows, close its last bar's close, and volume the sum of its 4
volumes. -/
theorem resample_to_4h_day24 :
    resample_to_4h day24 =
      [ { ts := 0, Open := some 1, High := some 4, Low := some 1,
          Close := some 4, Volume := some 10 },
        { ts := 4, Open := some 5, High := some 8, Low := some 5,
          Close := some 8, Volume := some 26 },
        { ts := 8, Open := some 9, High := some 12, Low := some 9,
          Close := some 12, Volume := some 42 },
        { ts := 12, Open := some 13, High := some 16, Low := some 13,
          Close := some 16, Volume := some 58 },
        { ts := 16, Open := some 17, High := some 20, Low := some 17,
          Close := some 20, Volume := some 74 },
        { ts := 20, Open := some 21, High := some 24, Low := some 21,
          Close := some 24, Volume := some 90 } ] := by
  with_unfolding_all rfl

/-- C9: `_resample_to_4h` on an empty series returns an empty series; being a
total function, it returns normally (no error is raised). -/
theorem resample_to_4h_empty : resample_to_4h [] = [] := rfl

/-- C8: whatever the hourly series, if the aggregation step inside
`_resample_to_4h`'s `try` block fails (raises), the function returns the
original hourly series unchanged. -/
theorem resample_to_4h_error_returns_input
    (agg : List Bar → Except String (List Bar)) (hourly : List Bar)
    (e : String) (h : agg hourly = Except.error e) :
    (resample_to_4h_try agg hourly).1 = hourly := by
  simp only [resample_to_4h_try, h]

/-- Witness for C8: a concrete failing aggregation step on a one-bar series. -/
theorem resample_to_4h_error_returns_input_witness :
    (resample_to_4h_try (fun _ => Except.error "bad index")
      [{ ts := 3, Open := some 1, High := some 2, Low := some 1,
         Close := some 2, Volume := some 7 }]).1 =
      [{ ts := 3, Open := some 1, High := some 2, Low := some 1,
         Close := some 2, Volume := some 7 }] :=
  resample_to_4h_error_returns_input (fun _ => Except.error "bad index") _
    "bad index" rfl

/-- C7: for every provider and symbol, `validate_symbol` is true iff the
provider's 5-day daily history returns normally with at least one bar; in
particular it is false when the call raises and false when the frame is
empty. -/
theorem validate_symbol_iff (p : Provider) (symbol : String) :
    validate_symbol p symbol = true ↔
      ∃ bars, p.history symbol "5d" "1d" = Except.ok bars ∧ bars ≠ [] := by
  unfold validate_symbol
  cases h : p.history symbol "5d" "1d" with
  | error e => simp [h]
  | ok bars => simp [h, List.isEmpty_iff]

/-- C3: whenever the provider's quote carries both `currentPrice` and
`previousClose`, the snapshot's change is their difference and its
change_percent is change / previous_close × 100 (when `previousClose = 0` both
sides are 0: the code skips the division, and in ℚ division by zero is 0). -/
theorem get_latest_price_change_formula
    (p : Provider) (symbol : String) (q : Info) (cp pc : ℚ)
    (hq : p.info symbol = Except.ok q)
    (hcp : q.currentPrice = some cp) (hpc : q.previousClose = some pc) :
    ∃ snap, get_latest_price p symbol = some snap ∧
      snap.change = cp - pc ∧ snap.change_percent = (cp - pc) / pc * 100 := by
  unfold get_latest_price
  rw [hq]
  refine ⟨_, rfl, ?_, ?_⟩
  · simp [hcp, hpc]
  · by_cases h0 : pc = 0
    · subst h0
      simp [pyTruthy, hcp, hpc]
    · simp [pyTruthy, hcp, hpc, h0]

/-- Provider whose quote has current_price = 100 and previous_close = 90. -/
def pDemo : Provider :=
  { history := fun _ _ _ => Except.ok []
    info := fun _ => Except.ok
      { currentPrice := some 100, previousClose := some 90
        volume := some 1000, marketCap := some 5000 } }

/-- Witness for C3: current_price = 100 and previous_close = 90 give
change = 10 and change_percent = 100/9 ≈ 11.111. -/
theorem get_latest_price_change_formula_witness :
    ∃ snap, get_latest_price pDemo "INFY.NS" = some snap ∧
      snap.change = 10 ∧ snap.change_percent = 100 / 9 ∧
      (11110 : ℚ) / 1000 < 100 / 9 ∧ (100 : ℚ) / 9 < 11112 / 1000 := by
  obtain ⟨snap, h1, h2, h3⟩ :=
    get_latest_price_change_formula pDemo "INFY.NS"
      { currentPrice := some 100, previousClose := some 90
        volume := some 1000, marketCap := some 5000 } 100 90 rfl rfl rfl
  refine ⟨snap, h1, ?_, ?_, by norm_num, by norm_num⟩
  · rw [h2]; norm_num
  · rw [h3]; norm_num

/-- C4: for every provider, symbol and period, `get_stock_data` at interval
"4h" returns exactly what the spec describes: it requests "1h" bars, and on a
normal, non-empty response returns the 4-hour aggregation with missing-field
rows removed (`spec_get_series_4h`, written from the spec's words). -/
theorem get_stock_data_4h_refines_spec (p : Provider) (symbol period : String) :
    (get_stock_data p symbol period "4h").1 = spec_get_series_4h p symbol period := by
  unfold get_stock_data spec_get_series_4h
  have hyf : yfInterval "4h" = "1h" := rfl
  rw [hyf]
  cases p.history symbol period "1h" with
  | error e => rfl
  | ok data =>
    by_cases hd : data.isEmpty <;> simp [hd]

/-- C6: whenever the provider's quote has `previousClose` absent or zero, the
snapshot is still returned (no division-by-zero failure: the division branch
is not taken) and its change_percent is 0. -/
theorem get_latest_price_zero_prev_close
    (p : Provider) (symbol : String) (q : Info)
    (hq : p.info symbol = Except.ok q)
    (hpc : q.previousClose = none ∨ q.previousClose = some 0) :
    ∃ snap, get_latest_price p symbol = some snap ∧ snap.change_percent = 0 := by
  unfold get_latest_price
  rw [hq]
  refine ⟨_, rfl, ?_⟩
  rcases hpc with h | h <;> simp [pyTruthy, h]

/-- Provider whose quote has previous_close = 0. -/
def pZeroPrev : Provider :=
  { history := fun _ _ _ => Except.ok []
    info := fun _ => Except.ok
      { currentPrice := some 100, previousClose := some 0
        volume := some 1000, marketCap := some 5000 } }

/-- Witness for C6 at a concrete quote with previous_close = 0. -/
theorem get_latest_price_zero_prev_close_witness :
    ∃ snap, get_latest_price pZeroPrev "ITC.NS" = some snap ∧
      snap.change_percent = 0 :=
  get_latest_price_zero_prev_close pZeroPrev "ITC.NS"
    { currentPrice := some 100, previousClose := some 0
      volume := some 1000, marketCap := some 5000 } rfl (Or.inr rfl)

/-- C5: for every local time with in-range minute/second/microsecond fields,
`check_market_hours` is true iff the weekday is Monday–Friday and the time of
day lies within 09:15:00.000000–15:30:00.000000 inclusive; in particular it is
false on a Saturday at 10:00, true on a Wednesday at 10:00, and false on a
Wednesday at 16:00. -/
theorem check_market_hours_characterization :
    (∀ t : LocalTime, t.minute < 60 → t.second < 60 → t.microsecond < 1000000 →
      (check_market_hours t = true ↔
        t.weekday < 5 ∧ 33300000000 ≤ usOfDay t ∧ usOfDay t ≤ 55800000000)) ∧
    check_market_hours
      { weekday := 5, hour := 10, minute := 0, second := 0, microsecond := 0 }
      = false ∧
    check_market_hours
      { weekday := 2, hour := 10, minute := 0, second := 0, microsecond := 0 }
      = true ∧
    check_market_hours
      { weekday := 2, hour := 16, minute := 0, second := 0, microsecond := 0 }
      = false := by
  refine ⟨?_, by decide, by decide, by decide⟩
  intro t hm hs hu
  simp only [check_market_hours, dtLE, usOfDay, Bool.and_eq_true, Bool.or_eq_true,
    decide_eq_true_eq, beq_iff_eq]
  omega

/-- Witness for C5: Wednesday 10:00 satisfies the characterisation and the
market is open. -/
theorem check_market_hours_characterization_witness :
    check_market_hours
      { weekday := 2, hour := 10, minute := 0, second := 0, microsecond := 0 }
      = true :=
  (check_market_hours_characterization.1
      { weekday := 2, hour := 10, minute := 0, second := 0, microsecond := 0 }
      (by decide) (by decide) (by decide)).mpr
    ⟨by decide, by decide, by decide⟩

/-- Two hourly bars in the same 4-hour bucket, each with a missing cell
(the first has no Volume, the second no Open). -/
def badBars : List Bar :=
  [ { ts := 0, Open := some 1, High := some 2, Low := some 1,
      Close := some 2, Volume := none },
    { ts := 1, Open := none, High := some 3, Low := some 1,
      Close := some 3, Volume := some 50 } ]

/-- Provider whose history always returns `badBars`. -/
def pBad : Provider :=
  { history := fun _ _ _ => Except.ok badBars
    info := fun _ => Except.error "no quote" }

/-- C10, counterexample: at interval "4h", a provider response whose rows all
contain missing fields does NOT always yield an empty series — the 4-hour
aggregation skips missing cells, so two incomplete rows of one bucket combine
into a complete bucket that survives both `dropna()` steps. The result is
still a series (not `None`), but it is non-empty. -/
theorem get_stock_data_all_missing_counterexample :
    (∀ b ∈ badBars, rowComplete b = false) ∧
    (get_stock_data pBad "TCS.NS" "60d" "4h").1 ≠ some [] ∧
    (get_stock_data pBad "TCS.NS" "60d" "4h").1 ≠ none := by
  with_unfolding_all decide

/-- C10 as amended: whenever the provider returns normally with at least one
row, `get_stock_data` returns a series (possibly empty), never `None`; and for
every interval other than "4h", a response whose rows all contain missing
fields yields exactly the empty series. -/
theorem get_stock_data_nonempty_provider_not_absent
    (p : Provider) (symbol period interval : String) (data : List Bar)
    (h : p.history symbol period (yfInterval interval) = Except.ok data)
    (hne : data ≠ []) :
    (∃ res, (get_stock_data p symbol period interval).1 = some res) ∧
    (interval ≠ "4h" → (∀ b ∈ data, rowComplete b = false) →
      (get_stock_data p symbol period interval).1 = some []) := by
  have hemp : data.isEmpty = false := by
    simp [List.isEmpty_iff, hne]
  constructor
  · simp only [get_stock_data, h, hemp, Bool.false_eq_true, if_false]
    exact ⟨_, rfl⟩
  · intro h4 hall
    have hi : (interval == "4h") = false := by
      simp [h4]
    simp only [get_stock_data, h, hemp, Bool.false_eq_true, if_false, hi,
      Bool.false_and, dropna, Option.some.injEq]
    rw [List.filter_eq_nil_iff]
    intro a ha
    simp [hall a ha]

/-- Provider whose single history row has a missing Open cell. -/
def pMiss : Provider :=
  { history := fun _ _ _ => Except.ok
      [ { ts := 0, Open := none, High := some 2, Low := some 1,
          Close := some 2, Volume := some 5 } ]
    info := fun _ => Except.error "no quote" }

/-- Witness for amended C10: a one-row all-incomplete response at interval
"1d" yields `some []`, not `None`. -/
theorem get_stock_data_nonempty_provider_not_absent_witness :
    (get_stock_data pMiss "TCS.NS" "60d" "1d").1 = some [] :=
  (get_stock_data_nonempty_provider_not_absent pMiss "TCS.NS" "60d" "1d" _
      rfl (by decide)).2 (by decide) (by decide)
